import Mathlib

/-!
Verification of the theme-preference logic of the Epic Ranking root module:
the `ThemeFormSchema` / `action` pair, the `useTheme` and
`useOptimisticThemeMode` resolvers, and the `ThemeSwitch` mode and next-mode
computations, shallowly embedded as pure Lean functions.
-/

/-- The three-valued theme mode enumeration of `ThemeFormSchema`
(`z.enum` over the strings system, light, dark). -/
inductive ThemeMode where
  | system
  | light
  | dark
  deriving DecidableEq, Fintype

/-- Modelled from the spec: the `Theme` type exported by
`utils/theme.server.ts` (the type of the persisted preference read by
`getTheme` and passed to `ThemeSwitch` as `userPreference`) is imported but
its definition is not part of the given source. The design document defines
the data model as "StoredPreference: optional ThemeMode, persisted
server-side per request/session; absent means no explicit choice", so the
stored preference ranges over all three theme modes, optionally. -/
abbrev StoredPreference := Option ThemeMode

/-- String decoding performed by the `z.enum` validator of
`ThemeFormSchema`: exactly the three literal strings are accepted. -/
def decodeTheme (v : String) : Option ThemeMode :=
  if v = "system" then some ThemeMode.system
  else if v = "light" then some ThemeMode.light
  else if v = "dark" then some ThemeMode.dark
  else none

/-- Wire encoding of a `ThemeMode` value, as written into the hidden form
input and into the theme cookie. -/
def themeToString : ThemeMode → String
  | ThemeMode.system => "system"
  | ThemeMode.light => "light"
  | ThemeMode.dark => "dark"

/-- Form data: an ordered list of name/value entries, as produced by
`request.formData()` on the server and exposed as `fetcher.formData` on the
client. Repeated names are allowed, as in the underlying web `FormData`. -/
abbrev FormData := List (String × String)

/-- All values submitted under a given field name, in submission order. -/
def fieldValues (fd : FormData) (name : String) : List String :=
  (fd.filter (fun p => p.1 = name)).map Prod.snd

/-- Validation of the collected values of the `theme` field: conform folds a
repeated field name into an array, and the `z.enum` validator accepts only a
single string among the three enumeration values, so parsing succeeds
exactly on a one-element list holding a valid value. -/
def parseSingle : List String → Option ThemeMode
  | [v] => decodeTheme v
  | _ => none

/-- `parseWithZod(formData, { schema: ThemeFormSchema })`, abstracted to the
theme value it yields: `some` of the submitted mode on a successful parse,
`none` when the submission fails validation. -/
def parseThemeForm (fd : FormData) : Option ThemeMode :=
  parseSingle (fieldValues fd "theme")

/-- Result of the root `action` handler: a JSON success response whose
set-cookie header persists the submitted theme via `setTheme(theme)`, or the
error response thrown by `invariantResponse` with the message
"Invalid theme received". -/
inductive ActionResult where
  | success (theme : ThemeMode)
  | invalidTheme
  deriving DecidableEq

/-- The root `action`: parse the request form data against
`ThemeFormSchema`; only on success read `submission.value.theme` and set the
theme cookie to it, otherwise reject with the invariant failure. -/
def action (fd : FormData) : ActionResult :=
  match parseThemeForm fd with
  | some t => ActionResult.success t
  | none => ActionResult.invalidTheme

/-- A fetcher as seen through `useFetchers`: its `formAction` path and its
in-flight `formData`, either of which may be absent. -/
structure Fetcher where
  formAction : Option String
  formData : Option FormData
  deriving DecidableEq

/-- `useOptimisticThemeMode`: find the first fetcher whose `formAction` is
the root path; if it exists and carries form data that parses against
`ThemeFormSchema`, return the submitted theme, otherwise return nothing. -/
def useOptimisticThemeMode (fetchers : List Fetcher) : Option ThemeMode :=
  match fetchers.find? (fun f => f.formAction = some "/") with
  | some themeFetcher =>
    match themeFetcher.formData with
    | some fd => parseThemeForm fd
    | none => none
  | none => none

/-- The body of `useTheme` with its three hook reads made explicit
parameters: the optimistic mode (`useOptimisticThemeMode()`), the stored
preference (`requestInfo.userPrefs.theme`) and the client hint
(`hints.theme`). This is the resolveEffectiveTheme operation of the design
document. -/
def resolveEffectiveTheme (optimisticMode : Option ThemeMode)
    (stored : StoredPreference) (hint : ThemeMode) : ThemeMode :=
  match optimisticMode with
  | some m => if m = ThemeMode.system then hint else m
  | none => stored.getD hint

/-- `useTheme`: resolve the effective theme from the current fetchers
snapshot, the stored preference and the client hint. -/
def useTheme (fetchers : List Fetcher) (stored : StoredPreference)
    (hint : ThemeMode) : ThemeMode :=
  resolveEffectiveTheme (useOptimisticThemeMode fetchers) stored hint

/-- The `mode` computation in `ThemeSwitch`:
`optimisticMode ?? userPreference ?? system`. -/
def themeSwitchMode (optimisticMode : Option ThemeMode)
    (userPreference : StoredPreference) : ThemeMode :=
  optimisticMode.getD (userPreference.getD ThemeMode.system)

/-- The `nextMode` computation in `ThemeSwitch`: light when the mode is
system, dark when it is light, system otherwise. -/
def computeNextMode (mode : ThemeMode) : ThemeMode :=
  if mode = ThemeMode.system then ThemeMode.light
  else if mode = ThemeMode.light then ThemeMode.dark
  else ThemeMode.system

/-- The form data submitted by `ThemeSwitch`: a single hidden input named
theme carrying the computed next mode. -/
def themeSwitchPayload (optimisticMode : Option ThemeMode)
    (userPreference : StoredPreference) : FormData :=
  [("theme",
    themeToString (computeNextMode (themeSwitchMode optimisticMode userPreference)))]

/-! Helper lemmas. -/

lemma encode_decode (t : ThemeMode) :
    decodeTheme (themeToString t) = some t := by
  cases t <;> decide

lemma decodeTheme_encode (v : String) (t : ThemeMode)
    (h : decodeTheme v = some t) : v = themeToString t := by
  unfold decodeTheme at h
  split_ifs at h with h1 h2 h3
  · cases h; exact h1
  · cases h; exact h2
  · cases h; exact h3

lemma parseSingle_eq_some (l : List String) (t : ThemeMode) :
    parseSingle l = some t ↔ l = [themeToString t] := by
  rcases l with _ | ⟨v, _ | ⟨w, rest⟩⟩
  · simp [parseSingle]
  · simp only [parseSingle, List.cons.injEq, and_true]
    constructor
    · intro h
      exact decodeTheme_encode v t h
    · intro h
      rw [h]
      exact encode_decode t
  · simp [parseSingle]

lemma action_eq_success (fd : FormData) (t : ThemeMode) :
    action fd = ActionResult.success t ↔ parseThemeForm fd = some t := by
  unfold action
  cases h : parseThemeForm fd <;> simp [h]

lemma useOptimisticThemeMode_cons_pos (f : Fetcher) (fs : List Fetcher)
    (hf : f.formAction = some "/") :
    useOptimisticThemeMode (f :: fs) = f.formData.bind parseThemeForm := by
  unfold useOptimisticThemeMode
  rw [List.find?_cons_of_pos _ (by simp [hf])]
  cases h : f.formData <;> simp [h]

lemma useOptimisticThemeMode_cons_neg (f : Fetcher) (fs : List Fetcher)
    (hf : f.formAction ≠ some "/") :
    useOptimisticThemeMode (f :: fs) = useOptimisticThemeMode fs := by
  unfold useOptimisticThemeMode
  rw [List.find?_cons_of_neg _ (by simp [hf])]

lemma useOptimisticThemeMode_first (pre : List Fetcher) (f : Fetcher)
    (post : List Fetcher) (hpre : ∀ g ∈ pre, g.formAction ≠ some "/")
    (hf : f.formAction = some "/") :
    useOptimisticThemeMode (pre ++ f :: post) =
      f.formData.bind parseThemeForm := by
  induction pre with
  | nil => simpa using useOptimisticThemeMode_cons_pos f post hf
  | cons g gs ih =>
    rw [List.cons_append,
      useOptimisticThemeMode_cons_neg g _ (hpre g (by simp))]
    exact ih (fun g₂ hg₂ => hpre g₂ (by simp [hg₂]))

lemma useOptimisticThemeMode_no_match (fs : List Fetcher)
    (h : ∀ g ∈ fs, g.formAction ≠ some "/") :
    useOptimisticThemeMode fs = none := by
  induction fs with
  | nil => rfl
  | cons g gs ih =>
    rw [useOptimisticThemeMode_cons_neg g gs (h g (by simp))]
    exact ih (fun g₂ hg₂ => h g₂ (by simp [hg₂]))

/-! Claim theorems. -/

/-- Claim C1: `resolveEffectiveTheme` (the body of `useTheme`) obeys the
stated precedence: an optimistic system value yields the client hint, an
optimistic light or dark value yields that value directly, and with no
optimistic value the result is the stored preference when present, otherwise
the client hint. -/
theorem resolveEffectiveTheme_precedence (stored : StoredPreference)
    (hint m : ThemeMode) :
    resolveEffectiveTheme (some ThemeMode.system) stored hint = hint ∧
    resolveEffectiveTheme (some ThemeMode.light) stored hint =
      ThemeMode.light ∧
    resolveEffectiveTheme (some ThemeMode.dark) stored hint =
      ThemeMode.dark ∧
    resolveEffectiveTheme none (some m) hint = m ∧
    resolveEffectiveTheme none none hint = hint := by
  revert stored hint m
  decide

/-- Claim C2 counterexample: with no optimistic value, a stored preference of
system and a client hint of light, `resolveEffectiveTheme` returns system,
which is neither light nor dark. -/
theorem resolveEffectiveTheme_stored_system_not_concrete :
    resolveEffectiveTheme none (some ThemeMode.system) ThemeMode.light =
      ThemeMode.system := by
  decide

/-- Claim C2 (amended): whenever the client hint is light or dark and the
stored preference is absent or itself light or dark, the result of
`resolveEffectiveTheme` is light or dark, never system. -/
theorem resolveEffectiveTheme_concrete_value
    (optimisticMode : Option ThemeMode) (stored : StoredPreference)
    (hint : ThemeMode) (hhint : hint ≠ ThemeMode.system)
    (hstored : stored ≠ some ThemeMode.system) :
    resolveEffectiveTheme optimisticMode stored hint ≠ ThemeMode.system := by
  revert optimisticMode stored hint
  decide

/-- Claim C2 witness: the amended concreteness theorem applied at a concrete
input. -/
theorem resolveEffectiveTheme_concrete_value_witness :
    resolveEffectiveTheme (some ThemeMode.system) (some ThemeMode.dark)
      ThemeMode.light ≠ ThemeMode.system :=
  resolveEffectiveTheme_concrete_value (some ThemeMode.system)
    (some ThemeMode.dark) ThemeMode.light (by decide) (by decide)

/-- Claim C3: `computeNextMode` is the total cyclic transition
system to light to dark to system: applying it three times is the identity
and it has no fixed point. -/
theorem computeNextMode_cyclic :
    ∀ m : ThemeMode,
      computeNextMode ThemeMode.system = ThemeMode.light ∧
      computeNextMode ThemeMode.light = ThemeMode.dark ∧
      computeNextMode ThemeMode.dark = ThemeMode.system ∧
      computeNextMode (computeNextMode (computeNextMode m)) = m ∧
      computeNextMode m ≠ m := by
  decide

/-- Claim C4: `useOptimisticThemeMode` selects the first fetcher in the
snapshot whose form action is the root path, returns the result of parsing
its form data against `ThemeFormSchema` (nothing when the data is absent or
fails validation), and returns nothing when no fetcher matches the path. -/
theorem useOptimisticThemeMode_spec :
    (∀ (pre : List Fetcher) (f : Fetcher) (post : List Fetcher),
      (∀ g ∈ pre, g.formAction ≠ some "/") → f.formAction = some "/" →
      useOptimisticThemeMode (pre ++ f :: post) =
        f.formData.bind parseThemeForm) ∧
    (∀ fs : List Fetcher, (∀ g ∈ fs, g.formAction ≠ some "/") →
      useOptimisticThemeMode fs = none) :=
  ⟨useOptimisticThemeMode_first, useOptimisticThemeMode_no_match⟩

/-- Claim C4 witness: a single in-flight fetcher targeting the root path with
payload theme dark resolves to the optimistic mode dark. -/
theorem useOptimisticThemeMode_spec_witness :
    useOptimisticThemeMode [⟨some "/", some [("theme", "dark")]⟩] =
      some ThemeMode.dark := by
  have h := useOptimisticThemeMode_spec.1 []
    ⟨some "/", some [("theme", "dark")]⟩ [] (by simp) rfl
  exact h.trans (by decide)

/-- Claim C5: a malformed or unparseable payload on the matching in-flight
submission, a matching submission with no form data, or no matching
submission at all, makes `useTheme` compute exactly the no-optimistic
result: the stored preference when present, otherwise the client hint; the
failure is never surfaced, only a normal theme value is returned. -/
theorem useTheme_graceful_fallback :
    (∀ (pre : List Fetcher) (f : Fetcher) (post : List Fetcher)
      (stored : StoredPreference) (hint : ThemeMode),
      (∀ g ∈ pre, g.formAction ≠ some "/") → f.formAction = some "/" →
      f.formData.bind parseThemeForm = none →
      useTheme (pre ++ f :: post) stored hint =
        resolveEffectiveTheme none stored hint) ∧
    (∀ (fs : List Fetcher) (stored : StoredPreference) (hint : ThemeMode),
      (∀ g ∈ fs, g.formAction ≠ some "/") →
      useTheme fs stored hint = resolveEffectiveTheme none stored hint) ∧
    (∀ (stored : StoredPreference) (hint : ThemeMode),
      resolveEffectiveTheme none stored hint = stored.getD hint) := by
  refine ⟨?_, ?_, ?_⟩
  · intro pre f post stored hint hpre hf hbad
    unfold useTheme
    rw [useOptimisticThemeMode_first pre f post hpre hf, hbad]
  · intro fs stored hint h
    unfold useTheme
    rw [useOptimisticThemeMode_no_match fs h]
  · intro stored hint
    rfl

/-- Claim C5 witness: a matching fetcher with the invalid payload theme blue
yields the stored preference, exactly as with no optimistic submission. -/
theorem useTheme_graceful_fallback_witness :
    useTheme [⟨some "/", some [("theme", "blue")]⟩] (some ThemeMode.dark)
      ThemeMode.light = ThemeMode.dark := by
  have h := useTheme_graceful_fallback.1 []
    ⟨some "/", some [("theme", "blue")]⟩ [] (some ThemeMode.dark)
    ThemeMode.light (by simp) rfl (by decide)
  exact h.trans (by decide)

/-- Claim C6: an optimistic system value with stored preference dark and
client hint light resolves to light: the optimistic value is concretized via
the hint and the stored preference is ignored; the same holds for the full
`useTheme` with an in-flight submission carrying theme system. -/
theorem resolveEffectiveTheme_system_concretized :
    resolveEffectiveTheme (some ThemeMode.system) (some ThemeMode.dark)
      ThemeMode.light = ThemeMode.light ∧
    useTheme [⟨some "/", some [("theme", "system")]⟩] (some ThemeMode.dark)
      ThemeMode.light = ThemeMode.light := by
  decide

/-- Claim C7: the resolvers are total: `useTheme` always returns one of the
three theme modes and `useOptimisticThemeMode` always returns a normal
optional result, for every snapshot, stored preference and hint; no failure
escapes as an error. -/
theorem theme_resolvers_total (fs : List Fetcher) (stored : StoredPreference)
    (hint : ThemeMode) :
    (useTheme fs stored hint = ThemeMode.system ∨
      useTheme fs stored hint = ThemeMode.light ∨
      useTheme fs stored hint = ThemeMode.dark) ∧
    (useOptimisticThemeMode fs = none ∨
      ∃ m : ThemeMode, useOptimisticThemeMode fs = some m) := by
  constructor
  · cases useTheme fs stored hint
    · exact Or.inl rfl
    · exact Or.inr (Or.inl rfl)
    · exact Or.inr (Or.inr rfl)
  · cases useOptimisticThemeMode fs
    · exact Or.inl rfl
    · exact Or.inr ⟨_, rfl⟩


/-- Claim C8: the action accepts a payload if and only if its theme field
consists of exactly one value that is one of the three enumeration values,
and on success the cookie it sets carries exactly the validated submitted
value; every other payload is rejected. -/
theorem action_schema_validation (fd : FormData) :
    ((∃ t, action fd = ActionResult.success t) ↔
      (∃ v, fieldValues fd "theme" = [v] ∧ (decodeTheme v).isSome)) ∧
    (∀ t, action fd = ActionResult.success t →
      fieldValues fd "theme" = [themeToString t]) := by
  have key : ∀ t, action fd = ActionResult.success t ↔
      fieldValues fd "theme" = [themeToString t] := by
    intro t
    rw [action_eq_success]
    exact parseSingle_eq_some _ t
  constructor
  · constructor
    · rintro ⟨t, ht⟩
      exact ⟨themeToString t, (key t).mp ht, by simp [encode_decode]⟩
    · rintro ⟨v, hv, hsome⟩
      rcases hd : decodeTheme v with _ | t
      · rw [hd] at hsome
        simp at hsome
      · exact ⟨t, (key t).mpr (by rw [hv, decodeTheme_encode v t hd])⟩
  · intro t
    exact (key t).mp

/-- Claim C8 witness: the schema theorem applied to the concrete payload
theme light. -/
theorem action_schema_validation_witness :
    fieldValues [("theme", "light")] "theme" =
      [themeToString ThemeMode.light] :=
  (action_schema_validation [("theme", "light")]).2 ThemeMode.light
    (by decide)

/-- Claim C9: every payload `ThemeSwitch` submits carries the computed next
mode of its current mode, the action always accepts it, and the rejection
branch with message "Invalid theme received" is unreachable for such
submissions. -/
theorem themeSwitch_submission_always_valid
    (optimisticMode : Option ThemeMode) (userPreference : StoredPreference) :
    action (themeSwitchPayload optimisticMode userPreference) =
      ActionResult.success
        (computeNextMode (themeSwitchMode optimisticMode userPreference)) ∧
    action (themeSwitchPayload optimisticMode userPreference) ≠
      ActionResult.invalidTheme := by
  revert optimisticMode userPreference
  decide

/-- Claim C10: with no optimistic value and no stored preference the switch
mode defaults to system (not the client hint), and the first toggle press
therefore submits the payload theme light. -/
theorem themeSwitch_default_first_press :
    themeSwitchMode none none = ThemeMode.system ∧
    computeNextMode (themeSwitchMode none none) = ThemeMode.light ∧
    themeSwitchPayload none none = [("theme", "light")] := by
  decide
